import Mathlib

/-!
Verification development for the job-orchestration subsystem of the
ivrit.ai runpod serverless repository (`fastapi_app/app`).

Shallow embedding of:
* `app/models.py`       — `JobStatus` enumeration,
* `app/database.py`     — the `TranscriptionJob` record (modelled as `Job`),
* `app/services/job_service.py`   — `get_job`, `update_job_status`, `cancel_job`,
* `app/tasks.py`        — `process_transcription` retry loop, `update_job_progress`,
* `app/services/webhook_service.py` — `send_webhook` payload, signing, retry loop,
* `app/services/transcription_service.py` — input validation of `transcribe`,
* `app/main.py`         — the submission endpoint flow.

External collaborators (the SQLAlchemy session, Python's `uuid` module,
`json.dumps`, `hmac`/`hashlib`, and the `requests` HTTP client) are modelled
by explicit state (an association-list store), a concrete parser for the
canonical UUID text form, a concrete JSON serializer that mirrors
`json.dumps` default formatting, an abstract keyed-hash parameter, and an
explicit list/stream of HTTP attempt outcomes.
-/

namespace ScribeRabbit

/-- `JobStatus` from `app/models.py` (a Python `str` enum with values
"pending", "processing", "completed", "failed", "cancelled"). -/
inductive JobStatus where
  | pending
  | processing
  | completed
  | failed
  | cancelled
deriving DecidableEq, Repr

/-- The `TranscriptionJob` database record from `app/database.py`, restricted
to the columns the orchestration logic reads or writes.  Timestamps are
abstracted to `Nat` ticks; `result` is the opaque JSON result payload. -/
structure Job where
  status : JobStatus
  progress : Int
  retry_count : Nat
  result : Option String
  transcription_text : Option String
  error_message : Option String
  started_at : Option Nat
  completed_at : Option Nat
  updated_at : Nat
  audio_url : Option String
  audio_file_path : Option String
  engine : String
  webhook_url : Option String
  recording_id : Option String
deriving DecidableEq, Repr

/-- Python truthiness of an optional string: `None` and `""` are falsy
(the source guards `if webhook_url:`, `if audio_url:`, `if error_message:`). -/
def truthy : Option String → Bool
  | none => false
  | some s => if s = "" then false else true

/-- A hexadecimal digit as accepted in a UUID text form. -/
def isHexDigit (c : Char) : Bool :=
  c.isDigit || ('a' ≤ c && c ≤ 'f') || ('A' ≤ c && c ≤ 'F')

/-- Models Python stdlib `uuid.UUID(job_id)` on the canonical
8-4-4-4-12 hyphenated text form: a parse failure (`none`) corresponds to the
`ValueError` the stdlib constructor raises on malformed input.  On success
the canonical lowercase key is returned. -/
def uuidParse (s : String) : Option String :=
  let cs := s.toList
  if cs.length = 36 &&
     cs.enum.all (fun p =>
       if p.1 = 8 || p.1 = 13 || p.1 = 18 || p.1 = 23 then p.2 = '-'
       else isHexDigit p.2) then
    some (String.mk (cs.map Char.toLower))
  else
    none

/-- The job table, keyed by canonical UUID string (models the SQLAlchemy
session's view of the `transcription_jobs` table). -/
abbrev Store := List (String × Job)

/-- `db.query(TranscriptionJob).filter(id == k).first()`. -/
def storeGet : Store → String → Option Job
  | [], _ => none
  | (k, j) :: rest, key => if k = key then some j else storeGet rest key

/-- Committing an updated row for an existing key. -/
def storeSet : Store → String → Job → Store
  | [], _, _ => []
  | (k, j) :: rest, key, j2 =>
      if k = key then (k, j2) :: rest else (k, j) :: storeSet rest key j2

/-- Inserting a fresh row (`db.add(job); db.commit()`). -/
def storeInsert (db : Store) (key : String) (j : Job) : Store :=
  (key, j) :: db

/-- `JobService.get_job` (`app/services/job_service.py` lines 63-78):
`uuid.UUID(job_id)` inside `try/except ValueError: return None`, then a
first-row lookup. -/
def get_job (db : Store) (job_id : String) : Option Job :=
  match uuidParse job_id with
  | none => none
  | some k => storeGet db k

/-- `JobService.update_job_status` (`job_service.py` lines 80-113).
`if error_message:` is Python truthiness — an empty message is not stored.
`updated_at` is refreshed; `started_at`/`completed_at` are set according to
the new status. -/
def update_job_status (db : Store) (job_id : String) (status : JobStatus)
    (error_message : Option String) (now : Nat) : Store × Bool :=
  match uuidParse job_id with
  | none => (db, false)
  | some k =>
    match storeGet db k with
    | none => (db, false)
    | some j =>
      let j1 := { j with status := status, updated_at := now }
      let j2 := if truthy error_message then { j1 with error_message := error_message } else j1
      let j3 :=
        if status = JobStatus.processing then { j2 with started_at := some now }
        else if status = JobStatus.completed ∨ status = JobStatus.failed then
          { j2 with completed_at := some now }
        else j2
      (storeSet db k j3, true)

/-- `JobService.cancel_job` (`job_service.py` lines 115-137): not found →
`False`; only PENDING and PROCESSING jobs may be cancelled, anything else →
`False` with no write; otherwise the status becomes CANCELLED. -/
def cancel_job (db : Store) (job_id : String) (now : Nat) : Store × Bool :=
  match uuidParse job_id with
  | none => (db, false)
  | some k =>
    match storeGet db k with
    | none => (db, false)
    | some j =>
      if j.status = JobStatus.pending ∨ j.status = JobStatus.processing then
        (storeSet db k { j with status := JobStatus.cancelled, updated_at := now }, true)
      else
        (db, false)

/-! ## Webhook notifier (`app/services/webhook_service.py`) -/

/-- A JSON value as it occurs in a webhook payload: `None` → `null`, or a
string. -/
inductive JVal where
  | null
  | str (s : String)
deriving DecidableEq, Repr

/-- An optional string rendered into the payload dictionary
(`payload['recording_id'] = recording_id` may be `None`). -/
def optJ : Option String → JVal
  | none => JVal.null
  | some s => JVal.str s

/-- The payload dictionary built by `WebhookService.send_webhook`
(`webhook_service.py` lines 52-62), as an insertion-ordered association
list: the base fields `recording_id`, `status`, `timestamp` (always `None`
in the source), then `transcription` only when a transcription text was
passed, then `error` only when an error was passed. -/
def webhookPayload (recording_id : Option String) (status : String)
    (transcription_text : Option String) (error : Option String) :
    List (String × JVal) :=
  [("recording_id", optJ recording_id), ("status", JVal.str status),
   ("timestamp", JVal.null)]
  ++ (match transcription_text with
      | some t => [("transcription", JVal.str t)]
      | none => [])
  ++ (match error with
      | some e => [("error", JVal.str e)]
      | none => [])

/-- JSON string escaping as performed by `json.dumps` for the characters
that can occur here: backslash, double quote, and ASCII control characters. -/
def jsonEscapeChar (c : Char) : String :=
  if c = '\\' then "\\\\"
  else if c = '\"' then "\\\""
  else if c = '\n' then "\\n"
  else if c = '\t' then "\\t"
  else if c = '\r' then "\\r"
  else if c.toNat < 32 then "\\u00" ++ String.mk [Nat.digitChar (c.toNat / 16), Nat.digitChar (c.toNat % 16)]
  else String.mk [c]

/-- Escape a whole string. -/
def jsonEscape (s : String) : String :=
  String.join (s.toList.map jsonEscapeChar)

/-- Serialize one JSON value. -/
def jvalSerialize : JVal → String
  | JVal.null => "null"
  | JVal.str s => "\"" ++ jsonEscape s ++ "\""

/-- Python `json.dumps` with default arguments on an (ordered) dictionary:
item separator `", "`, key separator `": "`.  The same default
serialization is used both by the explicit `json.dumps(payload)` that is
signed and by `requests.post(..., json=payload)` for the request body, so a
single function models both. -/
def jsonSerialize (ps : List (String × JVal)) : String :=
  "\x7b" ++ String.intercalate ", "
    (ps.map (fun p => "\"" ++ jsonEscape p.1 ++ "\": " ++ jvalSerialize p.2))
  ++ "\x7d"

/-- Outcome of one HTTP POST attempt as observed by the notifier: a
response with a status code, or a raised network error
(`requests.exceptions.RequestException` / any other exception). -/
inductive HttpAttempt where
  | response (code : Nat)
  | netError
deriving DecidableEq, Repr

/-- `response.raise_for_status()` does not raise exactly when the status
code is outside 400..599; only then does the source `return True`. -/
def raiseForStatusOk (code : Nat) : Bool :=
  if 400 ≤ code ∧ code < 600 then false else true

/-- Whether one attempt counts as delivered. -/
def attemptOk : HttpAttempt → Bool
  | HttpAttempt.response c => raiseForStatusOk c
  | HttpAttempt.netError => false

/-- The `for attempt in range(1, max_attempts + 1)` delivery loop
(`webhook_service.py` lines 83-108) run against a stream of attempt
outcomes, starting at attempt index `i`.  Returns
`(success, attempts made, seconds slept)`: success returns immediately,
a failed non-final attempt sleeps 1 second (`time.sleep(1)`), and after the
final failed attempt the loop returns `False`. -/
def deliveryLoop (outcomes : Nat → HttpAttempt) : Nat → Nat → Bool × Nat × Nat
  | 0, _ => (false, 0, 0)
  | fuel + 1, i =>
    if attemptOk (outcomes i) then (true, 1, 0)
    else
      match fuel with
      | 0 => (false, 1, 0)
      | f + 1 =>
        let r := deliveryLoop outcomes (f + 1) (i + 1)
        (r.1, r.2.1 + 1, r.2.2 + 1)

/-- The HTTP request issued by the notifier: URL, serialized JSON body,
headers, and the per-attempt timeout passed to `requests.post`. -/
structure HttpRequest where
  url : String
  body : String
  headers : List (String × String)
  timeout : Nat
deriving DecidableEq, Repr

/-- The observable result of `send_webhook`: the request description
(`none` when no URL was given and nothing was sent), the returned boolean,
attempts made, and seconds slept between attempts. -/
structure SendResult where
  request : Option HttpRequest
  success : Bool
  attempts : Nat
  sleeps : Nat
deriving DecidableEq, Repr

/-- First-match header lookup in the (insertion-ordered) headers dict. -/
def lookupHeader : List (String × String) → String → Option String
  | [], _ => none
  | (k, v) :: rest, key => if k = key then some v else lookupHeader rest key

/-- Default `max_attempts` parameter of `send_webhook`. -/
def defaultWebhookMaxAttempts : Nat := 3

/-- `WebhookService.send_webhook` (`webhook_service.py` lines 26-108).
`hmacHex key msg` abstracts the stdlib
`hmac.new(key.encode(), msg.encode(), hashlib.sha256).hexdigest()`
primitive; `secret` is `self.webhook_secret` (empty when unconfigured) and
`vercel` is `self.vercel_bypass_token`.  A falsy `webhook_url` returns
`False` immediately; otherwise the payload is built, headers are assembled
(content type, then the optional bypass header, then — when a secret is
configured — the hex HMAC of the serialized payload as
`X-Webhook-Signature`), and delivery is attempted up to `max_attempts`
times with `timeout=10` per attempt. -/
def send_webhook (hmacHex : String → String → String) (secret vercel : String)
    (outcomes : Nat → HttpAttempt) (webhook_url recording_id : Option String)
    (status : String) (transcription_text error : Option String)
    (max_attempts : Nat) : SendResult :=
  if truthy webhook_url = false then
    { request := none, success := false, attempts := 0, sleeps := 0 }
  else
    let url := webhook_url.getD ""
    let payload := webhookPayload recording_id status transcription_text error
    let body := jsonSerialize payload
    let headers :=
      [("Content-Type", "application/json")]
      ++ (if vercel = "" then [] else [("x-vercel-protection-bypass", vercel)])
      ++ (if secret = "" then [] else [("X-Webhook-Signature", hmacHex secret body)])
    let r := deliveryLoop outcomes max_attempts 0
    { request := some { url := url, body := body, headers := headers, timeout := 10 },
      success := r.1, attempts := r.2.1, sleeps := r.2.2 }

/-! ## Worker task (`app/tasks.py`) -/

/-- `settings.MAX_RETRY_ATTEMPTS` (`app/config.py` line 56). -/
def MAX_RETRY_ATTEMPTS : Nat := 3

/-- Outcome of one transcription attempt: the `transcribe` call returns a
result payload from which a text is extracted, or some step of the `try`
block raises with an error message. -/
inductive AttemptOutcome where
  | success (res : String) (text : String)
  | failure (err : String)
deriving DecidableEq, Repr

/-- Recognizer for failed attempts. -/
def isFailure : AttemptOutcome → Bool
  | AttemptOutcome.failure _ => true
  | AttemptOutcome.success _ _ => false

/-- The arguments of one `WebhookService.send_webhook` call made by the
worker. -/
structure WebhookCall where
  webhook_url : Option String
  recording_id : Option String
  status : String
  transcription_text : Option String
  error : Option String
deriving DecidableEq, Repr

/-- The observable event trace of the worker: committed row states and
webhook calls, in program order. -/
inductive Event where
  | commit (j : Job)
  | webhook (w : WebhookCall)
deriving DecidableEq, Repr

/-- The "processing started" notification (`tasks.py` lines 75-80):
status string `"transcribing"`, no text, no error. -/
def transcribingCall (j : Job) : WebhookCall :=
  { webhook_url := j.webhook_url, recording_id := j.recording_id,
    status := "transcribing", transcription_text := none, error := none }

/-- The completion notification (`tasks.py` lines 108-113): status string
`"transcribed"`, with the transcription text and no error. -/
def completedCall (j : Job) (text : String) : WebhookCall :=
  { webhook_url := j.webhook_url, recording_id := j.recording_id,
    status := "transcribed", transcription_text := some text, error := none }

/-- The failure notification (`tasks.py` lines 131-137): status string
`"transcription_failed"`, with the error message and no text. -/
def failedCall (j : Job) (e : String) : WebhookCall :=
  { webhook_url := j.webhook_url, recording_id := j.recording_id,
    status := "transcription_failed", transcription_text := none, error := some e }

/-- `tasks.py` lines 69-72: on attempt start the worker sets
`status = PROCESSING`, `started_at = now` and commits. -/
def startAttempt (j : Job) (t : Nat) : Job :=
  { j with status := JobStatus.processing, started_at := some t, updated_at := t }

/-- `tasks.py` lines 99-105: the completion write performed at the end of a
successful attempt on whatever row state the worker holds — note that it
does NOT inspect the current status before overwriting it. -/
def completionWrite (j : Job) (t : Nat) (res text : String) : Job :=
  { j with status := JobStatus.completed, completed_at := some t,
           result := some res, transcription_text := some text,
           progress := 100, updated_at := t }

/-- `tasks.py` lines 122-128: the failure write — status `FAILED`, the
error message, and an incremented `retry_count` (`completed_at` is not
touched on this path). -/
def failureWrite (j : Job) (t : Nat) (e : String) : Job :=
  { j with status := JobStatus.failed, error_message := some e,
           retry_count := j.retry_count + 1, updated_at := t }

/-- `tasks.py` lines 99-113 as a unit: the commit of the completed row
followed by the completion webhook call, applied to the row state `j` the
worker currently holds. -/
def workerFinishSuccess (j : Job) (t : Nat) (res text : String) :
    Job × List Event :=
  let j2 := completionWrite j t res text
  (j2, [Event.commit j2, Event.webhook (completedCall j2 text)])

/-- One execution of the `process_transcription` task body on a job row:
mark PROCESSING and notify, then either the success path (terminal commit
then completion webhook) or the failure path (failure commit then failure
webhook).  Returns the final row state of this attempt and its event
trace. -/
def runAttempt (j : Job) (t : Nat) (o : AttemptOutcome) : Job × List Event :=
  let j1 := startAttempt j t
  match o with
  | AttemptOutcome.success res text =>
    let r := workerFinishSuccess j1 (t + 1) res text
    (r.1, [Event.commit j1, Event.webhook (transcribingCall j1)] ++ r.2)
  | AttemptOutcome.failure e =>
    let j2 := failureWrite j1 (t + 1) e
    (j2, [Event.commit j1, Event.webhook (transcribingCall j1),
          Event.commit j2, Event.webhook (failedCall j2 e)])

/-- The Celery retry loop of `process_transcription` (`tasks.py` lines
139-144): after a failed attempt the task calls `self.retry(...)` — which
re-executes the whole task on the current row — exactly when the freshly
incremented `retry_count` is still below the configured maximum; otherwise
the exception propagates and no further attempt happens.  `outcomes` is
the list of forced outcomes of the successive attempts. -/
def runJob (max : Nat) : Job → Nat → List AttemptOutcome → Job × List Event
  | j, _, [] => (j, [])
  | j, t, o :: rest =>
    let r := runAttempt j t o
    match o with
    | AttemptOutcome.success _ _ => r
    | AttemptOutcome.failure _ =>
      if r.1.retry_count < max then
        let r2 := runJob max r.1 (t + 2) rest
        (r2.1, r.2 ++ r2.2)
      else r

/-- The webhook statuses occurring in a trace, in order. -/
def webhookStatuses (evs : List Event) : List String :=
  evs.filterMap (fun e =>
    match e with
    | Event.webhook w => some w.status
    | Event.commit _ => none)

/-- How many webhook calls with the given status string a trace holds. -/
def countWebhook (evs : List Event) (s : String) : Nat :=
  (webhookStatuses evs).count s

/-- The sequence of committed row statuses in a trace. -/
def commitStatuses (evs : List Event) : List JobStatus :=
  evs.filterMap (fun e =>
    match e with
    | Event.commit j => some j.status
    | Event.webhook _ => none)

/-- Number of attempts started in a trace (each attempt opens with exactly
one `"transcribing"` webhook call). -/
def attemptsOf (evs : List Event) : Nat :=
  countWebhook evs "transcribing"

/-- `update_job_progress` (`tasks.py` lines 150-159): look the job up by
`uuid.UUID(job_id)` — here NOT wrapped in a `try/except ValueError`, so a
malformed id raises (modelled as `none`) — and if a row exists store the
reported value verbatim and commit.  No clamping, no status check, no
comparison with the current progress appears in the source. -/
def update_job_progress (db : Store) (job_id : String) (p : Int) :
    Option Store :=
  match uuidParse job_id with
  | none => none
  | some k =>
    match storeGet db k with
    | none => some db
    | some j => some (storeSet db k { j with progress := p })

/-! ## Submission path (`app/main.py`, `app/models.py`,
`app/services/job_service.py`) and `transcribe` input validation
(`app/services/transcription_service.py`) -/

/-- The `TranscriptionEngine` enum from `app/models.py`. -/
inductive TranscriptionEngine where
  | fasterWhisper
  | stableWhisper
deriving DecidableEq, Repr

/-- The wire value of each engine. -/
def engineStr : TranscriptionEngine → String
  | TranscriptionEngine.fasterWhisper => "faster-whisper"
  | TranscriptionEngine.stableWhisper => "stable-whisper"

/-- Pydantic coercion of the submitted engine string into the
`TranscriptionEngine` enum: any other value fails request validation. -/
def parseEngine : String → Option TranscriptionEngine
  | "faster-whisper" => some TranscriptionEngine.fasterWhisper
  | "stable-whisper" => some TranscriptionEngine.stableWhisper
  | _ => none

/-- The submitted request body before validation (the fields of
`TranscriptionJobCreate` that the orchestration reads). -/
structure RawSubmission where
  url : Option String
  file_upload : Bool
  filename : Option String
  engine : String
  webhook_url : Option String
  recording_id : Option String
deriving DecidableEq, Repr

/-- A request that passed `TranscriptionJobCreate` validation.  Note: the
model requires a valid engine but places no requirement on `url` /
`file_upload` — neither field is constrained in `app/models.py`. -/
structure Submission where
  url : Option String
  file_upload : Bool
  filename : Option String
  engine : TranscriptionEngine
  webhook_url : Option String
  recording_id : Option String
deriving DecidableEq, Repr

/-- Pydantic validation of `TranscriptionJobCreate`: it only checks that
the engine string is a member of the enum. -/
def validateSubmission (r : RawSubmission) : Except String Submission :=
  match parseEngine r.engine with
  | none => Except.error "validation error: engine is not a TranscriptionEngine"
  | some e =>
    Except.ok { url := r.url, file_upload := r.file_upload,
                filename := r.filename, engine := e,
                webhook_url := r.webhook_url, recording_id := r.recording_id }

/-- `JobService.create_transcription_job` (`job_service.py` lines 23-61):
persists a PENDING row.  `audio_url` is `str(url)` when the url is truthy
and `NULL` otherwise; `audio_file_path` is never assigned by any creation
path, so it is always `NULL`. -/
def create_transcription_job (db : Store) (s : Submission) (newId : String)
    (t : Nat) : Store × Job :=
  let j : Job :=
    { status := JobStatus.pending, progress := 0, retry_count := 0,
      result := none, transcription_text := none, error_message := none,
      started_at := none, completed_at := none, updated_at := t,
      audio_url := if truthy s.url then s.url else none,
      audio_file_path := none, engine := engineStr s.engine,
      webhook_url := s.webhook_url, recording_id := s.recording_id }
  (storeInsert db newId j, j)

/-- The `POST /api/v1/transcribe` flow (`main.py` lines 106-147): request
validation happens first (a failure is rejected synchronously and no row is
written); on success the PENDING row is persisted and the task is
dispatched. -/
def create_transcription_job_endpoint (db : Store) (r : RawSubmission)
    (newId : String) (t : Nat) : Except String (Store × Job) :=
  match validateSubmission r with
  | Except.error e => Except.error e
  | Except.ok s => Except.ok (create_transcription_job db s newId t)

/-- The input validation at the top of `TranscriptionService.transcribe`
(`transcription_service.py` lines 55-88): first the engine membership
check, then the audio-source check — `if audio_url: ... elif
audio_file_path: ... else raise ValueError(...)` (Python truthiness).
This code runs inside the worker attempt, after the job row exists. -/
def transcribe_validate (engine : String) (audio_url audio_file_path : Option String) :
    Except String Unit :=
  if engine = "faster-whisper" ∨ engine = "stable-whisper" then
    if truthy audio_url then Except.ok ()
    else if truthy audio_file_path then Except.ok ()
    else Except.error "Either audio_url or audio_file_path must be provided"
  else
    Except.error ("Engine should be faster-whisper or stable-whisper, but is " ++ engine)

/-! ## Concrete fixtures used by the claim theorems and witnesses -/

/-- `payload` of a given worker webhook call (the arguments `send_webhook`
turns into its payload dictionary). -/
def payloadOfCall (w : WebhookCall) : List (String × JVal) :=
  webhookPayload w.recording_id w.status w.transcription_text w.error

/-- The payload the specification text prescribes for a "completed" event on
correlation id `"rec_1"` with text `"hello world"` — written from the
spec's words, to be compared against the payload the source builds. -/
def specCompletedPayload : List (String × JVal) :=
  [("correlation_id", JVal.str "rec_1"), ("status", JVal.str "completed"),
   ("transcription", JVal.str "hello world")]

/-- The specification's per-attempt success predicate ("attempt succeeds on
any 2xx response") — written from the spec's words, to be compared against
the source's `raise_for_status` behavior. -/
def is2xx (c : Nat) : Bool := 200 ≤ c && c < 300

/-- A canonical UUID key for fixtures. -/
def uuidKey : String := "00000000-0000-0000-0000-000000000000"

/-- A second canonical UUID key. -/
def uuidKey2 : String := "11111111-1111-1111-1111-111111111111"

/-- A freshly created PENDING job with a webhook URL and a recording id. -/
def sampleJob : Job :=
  { status := JobStatus.pending, progress := 0, retry_count := 0,
    result := none, transcription_text := none, error_message := none,
    started_at := none, completed_at := none, updated_at := 0,
    audio_url := some "https://example.com/a.mp3", audio_file_path := none,
    engine := "faster-whisper", webhook_url := some "https://cb.example/hook",
    recording_id := some "rec_1" }

/-- `sampleJob` after a cancellation landed while the worker was running. -/
def cancelledJob : Job :=
  { sampleJob with status := JobStatus.cancelled, started_at := some 1,
                   updated_at := 3 }

/-- `sampleJob` in the terminal COMPLETED state with full progress. -/
def completedJob : Job :=
  { sampleJob with status := JobStatus.completed, progress := 100 }

/-- A one-row table holding the pending fixture job. -/
def pendingStore : Store := [(uuidKey, sampleJob)]

/-- A one-row table holding the completed fixture job. -/
def completedStore : Store := [(uuidKey, completedJob)]

/-- The forced outcomes of claim C1's scenario: two transcription failures
followed by a success. -/
def c1outcomes : List AttemptOutcome :=
  [AttemptOutcome.failure "e1", AttemptOutcome.failure "e2",
   AttemptOutcome.success "res" "hello world"]

/-- The C1 scenario run: `max_retries = 3`, fresh job, two failures then a
success. -/
def c1run : Job × List Event := runJob MAX_RETRY_ATTEMPTS sampleJob 0 c1outcomes

/-- A submission with a valid engine but neither URL nor file upload. -/
def rawNoSource : RawSubmission :=
  { url := none, file_upload := false, filename := none,
    engine := "faster-whisper", webhook_url := none,
    recording_id := some "rec_1" }

/-- The successful result of the submission endpoint, if any. -/
def exceptOk? : Except String (Store × Job) → Option (Store × Job)
  | Except.ok p => some p
  | Except.error _ => none

/-- A concrete stand-in for the external HMAC-SHA256 hex primitive, used
only to instantiate witnesses of theorems that hold for every such
function. -/
def sampleHmac : String → String → String := fun k m => k ++ ":" ++ m

/-! ## Theorems -/

theorem storeGet_storeSet (db : Store) (k : String) (j j2 : Job)
    (h : storeGet db k = some j) : storeGet (storeSet db k j2) k = some j2 := by
  induction db with
  | nil => simp [storeGet] at h
  | cons hd tl ih =>
    by_cases hk : hd.1 = k
    · simp [storeGet, storeSet, hk]
    · simp [storeGet, storeSet, hk] at h ⊢
      exact ih h

/-- Claim C5 counterexample: a submission with a supported engine but
neither URL nor file upload passes request validation, a PENDING row IS
persisted, and the missing-source error is the `ValueError` raised later
inside the worker's `transcribe` call — not a synchronous rejection before
persistence. -/
theorem claim5_counterexample :
    (exceptOk? (create_transcription_job_endpoint [] rawNoSource uuidKey2 0)).isSome = true ∧
    ((exceptOk? (create_transcription_job_endpoint [] rawNoSource uuidKey2 0)).map
        (fun p => (p.1.length, p.2.status))) = some (1, JobStatus.pending) ∧
    ((exceptOk? (create_transcription_job_endpoint [] rawNoSource uuidKey2 0)).map
        (fun p => transcribe_validate p.2.engine p.2.audio_url p.2.audio_file_path)) =
      some (Except.error "Either audio_url or audio_file_path must be provided") := by
  refine ⟨rfl, rfl, rfl⟩

/-- Claim C5 amended: an unsupported engine name is rejected synchronously
by request-model validation and no job row is created; but a submission
with neither URL nor upload is NOT rejected synchronously — a PENDING job
is persisted and dispatched, and the "Either audio_url or audio_file_path
must be provided" `ValueError` arises only inside the worker's
transcription attempt. -/
theorem claim5_amended_validation (db : Store) (r : RawSubmission)
    (newId : String) (t : Nat) :
    (parseEngine r.engine = none →
      create_transcription_job_endpoint db r newId t =
        Except.error "validation error: engine is not a TranscriptionEngine") ∧
    (∀ e, parseEngine r.engine = some e → truthy r.url = false →
      ∃ j : Job,
        exceptOk? (create_transcription_job_endpoint db r newId t) =
          some (storeInsert db newId j, j) ∧
        j.status = JobStatus.pending ∧ j.retry_count = 0 ∧
        transcribe_validate j.engine j.audio_url j.audio_file_path =
          Except.error "Either audio_url or audio_file_path must be provided") := by
  constructor
  · intro h
    simp [create_transcription_job_endpoint, validateSubmission, h]
  · intro e he hu
    refine ⟨(create_transcription_job db
      { url := r.url, file_upload := r.file_upload, filename := r.filename,
        engine := e, webhook_url := r.webhook_url,
        recording_id := r.recording_id } newId t).2, ?_, rfl, rfl, ?_⟩
    · simp [create_transcription_job_endpoint, validateSubmission, he, exceptOk?,
            create_transcription_job, storeInsert]
    · have h2 : (if truthy r.url = true then r.url else none) = none := by
        rw [hu]; simp
      show transcribe_validate (engineStr e)
          (if truthy r.url = true then r.url else none) none =
        Except.error "Either audio_url or audio_file_path must be provided"
      rw [h2]
      cases e <;> rfl

/-- Claim C5 witness: the amended statement applied to the concrete
no-source submission against an empty table. -/
theorem claim5_witness :
    ∃ j : Job,
      exceptOk? (create_transcription_job_endpoint [] rawNoSource uuidKey2 0) =
        some (storeInsert [] uuidKey2 j, j) ∧
      j.status = JobStatus.pending ∧ j.retry_count = 0 ∧
      transcribe_validate j.engine j.audio_url j.audio_file_path =
        Except.error "Either audio_url or audio_file_path must be provided" :=
  (claim5_amended_validation [] rawNoSource uuidKey2 0).2
    TranscriptionEngine.fasterWhisper (by decide) (by decide)

/-- Claim C6 counterexample: the payload actually delivered for the
code's completed event on `recording_id = "rec_1"` with text
`"hello world"` uses the field name `recording_id` (not `correlation_id`),
the status literal `"transcribed"` (not `"completed"`), and carries an
extra always-present `timestamp` field — it is not the payload the claim
states. -/
theorem claim6_counterexample :
    payloadOfCall (completedCall sampleJob "hello world") =
      [("recording_id", JVal.str "rec_1"), ("status", JVal.str "transcribed"),
       ("timestamp", JVal.null), ("transcription", JVal.str "hello world")] ∧
    ¬ payloadOfCall (completedCall sampleJob "hello world") = specCompletedPayload := by
  decide

/-- Claim C6 amended: the completed-event payload for recording id
`"rec_1"` and text `"hello world"` is exactly
`(recording_id: "rec_1", status: "transcribed", timestamp: null,
transcription: "hello world")`; in general the payload always holds the
three base fields and adds `transcription` exactly when a text is passed
and `error` exactly when an error is passed — and the worker's completed
call passes no error while its failure call passes no text. -/
theorem claim6_amended_payload :
    (payloadOfCall (completedCall sampleJob "hello world") =
      [("recording_id", JVal.str "rec_1"), ("status", JVal.str "transcribed"),
       ("timestamp", JVal.null), ("transcription", JVal.str "hello world")]) ∧
    (∀ (rid : Option String) (st : String) (tx er : Option String),
      (webhookPayload rid st tx er).map Prod.fst =
        ["recording_id", "status", "timestamp"]
        ++ (match tx with | some _ => ["transcription"] | none => [])
        ++ (match er with | some _ => ["error"] | none => [])) ∧
    (∀ (j : Job) (text : String),
      (completedCall j text).transcription_text = some text ∧
      (completedCall j text).error = none) ∧
    (∀ (j : Job) (e : String),
      (failedCall j e).transcription_text = none ∧
      (failedCall j e).error = some e) := by
  refine ⟨by decide, ?_, fun j text => ⟨rfl, rfl⟩, fun j e => ⟨rfl, rfl⟩⟩
  intro rid st tx er
  cases tx <;> cases er <;> simp [webhookPayload]

/-- Claim C7: when a secret is configured, the delivered body is exactly
the serialized JSON payload and the `X-Webhook-Signature` header carries
`hmacHex secret body` — so a receiver recomputing the keyed hash of the
received body with the same secret obtains exactly the attached header
value; when no secret is configured, no signature header is attached.
Stated for every keyed-hash primitive `hmacHex` (the stdlib HMAC-SHA256 in
the source). -/
theorem claim7_hmac_signature (hmacHex : String → String → String)
    (secret vercel : String) (outcomes : Nat → HttpAttempt) (url : String)
    (rid : Option String) (st : String) (tx er : Option String) (n : Nat)
    (hu : ¬ url = "") :
    ((send_webhook hmacHex secret vercel outcomes (some url) rid st tx er n).request.map
        HttpRequest.body) =
      some (jsonSerialize (webhookPayload rid st tx er)) ∧
    (¬ secret = "" →
      ((send_webhook hmacHex secret vercel outcomes (some url) rid st tx er n).request.map
          (fun req => lookupHeader req.headers "X-Webhook-Signature")) =
        some (some (hmacHex secret (jsonSerialize (webhookPayload rid st tx er))))) ∧
    (secret = "" →
      ((send_webhook hmacHex secret vercel outcomes (some url) rid st tx er n).request.map
          (fun req => lookupHeader req.headers "X-Webhook-Signature")) =
        some none) := by
  have ht : truthy (some url) = true := by simp [truthy, hu]
  refine ⟨?_, ?_, ?_⟩
  · simp [send_webhook, ht]
  · intro hs
    by_cases hv : vercel = "" <;>
      simp [send_webhook, ht, hs, hv, lookupHeader]
  · intro hs
    by_cases hv : vercel = "" <;>
      simp [send_webhook, ht, hs, hv, lookupHeader]

/-- Claim C7 witness: the signing statement applied to a concrete
keyed-hash stand-in, secret, and payload. -/
theorem claim7_witness :
    ((send_webhook sampleHmac "s" "" (fun _ => HttpAttempt.response 200)
        (some "https://cb.example/hook") (some "rec_1") "transcribed"
        (some "hello world") none 3).request.map HttpRequest.body) =
      some (jsonSerialize (webhookPayload (some "rec_1") "transcribed"
        (some "hello world") none)) ∧
    ((send_webhook sampleHmac "s" "" (fun _ => HttpAttempt.response 200)
        (some "https://cb.example/hook") (some "rec_1") "transcribed"
        (some "hello world") none 3).request.map
        (fun req => lookupHeader req.headers "X-Webhook-Signature")) =
      some (some (sampleHmac "s" (jsonSerialize (webhookPayload (some "rec_1")
        "transcribed" (some "hello world") none)))) :=
  ⟨(claim7_hmac_signature sampleHmac "s" "" (fun _ => HttpAttempt.response 200)
      "https://cb.example/hook" (some "rec_1") "transcribed"
      (some "hello world") none 3 (by decide)).1,
   (claim7_hmac_signature sampleHmac "s" "" (fun _ => HttpAttempt.response 200)
      "https://cb.example/hook" (some "rec_1") "transcribed"
      (some "hello world") none 3 (by decide)).2.1 (by decide)⟩

theorem deliveryLoop_spec (outcomes : Nat → HttpAttempt) :
    ∀ (n i : Nat),
      (deliveryLoop outcomes n i).2.1 ≤ n ∧
      (1 ≤ n → 1 ≤ (deliveryLoop outcomes n i).2.1) ∧
      (deliveryLoop outcomes n i).2.2 = (deliveryLoop outcomes n i).2.1 - 1 ∧
      ((deliveryLoop outcomes n i).1 = true ↔
        ∃ j, j < n ∧ attemptOk (outcomes (i + j)) = true) := by
  intro n
  induction n with
  | zero =>
    intro i
    refine ⟨le_refl 0, by omega, rfl, ?_⟩
    simp [deliveryLoop]
  | succ m ih =>
    intro i
    by_cases h : attemptOk (outcomes i) = true
    · have hb : (deliveryLoop outcomes (m + 1) i).1 = true := by
        cases m <;> simp [deliveryLoop, h]
      have ha : (deliveryLoop outcomes (m + 1) i).2.1 = 1 := by
        cases m <;> simp [deliveryLoop, h]
      have hs : (deliveryLoop outcomes (m + 1) i).2.2 = 0 := by
        cases m <;> simp [deliveryLoop, h]
      refine ⟨by omega, fun _ => by omega, by omega, ?_⟩
      rw [hb]
      constructor
      · intro _
        exact ⟨0, by omega, by simpa using h⟩
      · intro _
        rfl
    · have hx : attemptOk (outcomes i) = false := by
        revert h; cases attemptOk (outcomes i) <;> simp
      cases m with
      | zero =>
        have hb : (deliveryLoop outcomes (0 + 1) i).1 = false := by
          simp [deliveryLoop, hx]
        have ha : (deliveryLoop outcomes (0 + 1) i).2.1 = 1 := by
          simp [deliveryLoop, hx]
        have hs : (deliveryLoop outcomes (0 + 1) i).2.2 = 0 := by
          simp [deliveryLoop, hx]
        refine ⟨by omega, fun _ => by omega, by omega, ?_⟩
        rw [hb]
        constructor
        · intro hc
          exact absurd hc (by simp)
        · rintro ⟨j, hj, hok⟩
          have hj0 : j = 0 := by omega
          rw [hj0, Nat.add_zero] at hok
          rw [hok] at hx
          exact absurd hx (by simp)
      | succ f =>
        have hb : (deliveryLoop outcomes (f + 1 + 1) i).1 =
            (deliveryLoop outcomes (f + 1) (i + 1)).1 := by
          simp [deliveryLoop, hx]
        have ha2 : (deliveryLoop outcomes (f + 1 + 1) i).2.1 =
            (deliveryLoop outcomes (f + 1) (i + 1)).2.1 + 1 := by
          simp [deliveryLoop, hx]
        have hs2 : (deliveryLoop outcomes (f + 1 + 1) i).2.2 =
            (deliveryLoop outcomes (f + 1) (i + 1)).2.2 + 1 := by
          simp [deliveryLoop, hx]
        obtain ⟨ha, hp, hs, hiff⟩ := ih (i + 1)
        have hp1 : 1 ≤ (deliveryLoop outcomes (f + 1) (i + 1)).2.1 := hp (by omega)
        refine ⟨by rw [ha2]; exact Nat.add_le_add_right ha 1,
                fun _ => by rw [ha2]; exact Nat.succ_le_succ (Nat.zero_le _),
                by rw [hs2, ha2, hs, Nat.add_sub_cancel, Nat.sub_add_cancel hp1], ?_⟩
        rw [hb, hiff]
        constructor
        · rintro ⟨j, hj, hok⟩
          refine ⟨j + 1, by omega, ?_⟩
          have harith : i + (j + 1) = i + 1 + j := by omega
          rw [harith]
          exact hok
        · rintro ⟨j, hj, hok⟩
          cases j with
          | zero =>
            rw [Nat.add_zero] at hok
            rw [hok] at hx
            exact absurd hx (by simp)
          | succ j2 =>
            refine ⟨j2, by omega, ?_⟩
            have harith : i + 1 + j2 = i + (j2 + 1) := by omega
            rw [harith]
            exact hok

/-- Claim C8 counterexample: the notifier accepts a 304 response as a
successful delivery on the first attempt — but 304 is not a 2xx status, so
"success only on 2xx, any other response is retried" is false of the code
(`raise_for_status` only raises for 4xx/5xx). -/
theorem claim8_counterexample :
    (send_webhook sampleHmac "" "" (fun _ => HttpAttempt.response 304)
        (some "https://cb.example/hook") (some "rec_1") "transcribed"
        none none 3).success = true ∧
    (send_webhook sampleHmac "" "" (fun _ => HttpAttempt.response 304)
        (some "https://cb.example/hook") (some "rec_1") "transcribed"
        none none 3).attempts = 1 ∧
    is2xx 304 = false ∧
    attemptOk (HttpAttempt.response 304) = true := by
  decide

/-- Claim C8 amended: the notifier makes at most `max_attempts` POST
attempts (default 3) with `timeout=10` per attempt, sleeps 1 second after
every failed non-final attempt (so seconds slept = attempts − 1), succeeds
exactly when some attempt within the budget draws a response outside
4xx/5xx (in particular every 2xx succeeds; network errors never do),
returns `False` after exhausting the budget instead of raising, and the
worker commits the job's terminal state strictly before the notification
call appears in its event trace. -/
theorem claim8_amended_delivery :
    (∀ (outcomes : Nat → HttpAttempt) (n i : Nat),
      (deliveryLoop outcomes n i).2.1 ≤ n) ∧
    (∀ (outcomes : Nat → HttpAttempt) (n i : Nat),
      (deliveryLoop outcomes n i).2.2 = (deliveryLoop outcomes n i).2.1 - 1) ∧
    (∀ (outcomes : Nat → HttpAttempt) (n i : Nat),
      ((deliveryLoop outcomes n i).1 = true ↔
        ∃ j, j < n ∧ attemptOk (outcomes (i + j)) = true)) ∧
    (∀ c : Nat, 200 ≤ c → c < 300 → attemptOk (HttpAttempt.response c) = true) ∧
    attemptOk HttpAttempt.netError = false ∧
    defaultWebhookMaxAttempts = 3 ∧
    (∀ (hmacHex : String → String → String) (secret vercel : String)
       (outcomes : Nat → HttpAttempt) (url : String) (rid : Option String)
       (st : String) (tx er : Option String) (n : Nat), ¬ url = "" →
      ((send_webhook hmacHex secret vercel outcomes (some url) rid st tx er n).request.map
          HttpRequest.timeout) = some 10 ∧
      (send_webhook hmacHex secret vercel outcomes (some url) rid st tx er n).attempts =
        (deliveryLoop outcomes n 0).2.1 ∧
      (send_webhook hmacHex secret vercel outcomes (some url) rid st tx er n).sleeps =
        (deliveryLoop outcomes n 0).2.2) ∧
    (∀ (j : Job) (t : Nat) (res tx : String),
      (runAttempt j t (AttemptOutcome.success res tx)).2 =
        [Event.commit (startAttempt j t),
         Event.webhook (transcribingCall (startAttempt j t)),
         Event.commit (completionWrite (startAttempt j t) (t + 1) res tx),
         Event.webhook
           (completedCall (completionWrite (startAttempt j t) (t + 1) res tx) tx)]) := by
  refine ⟨fun outcomes n i => (deliveryLoop_spec outcomes n i).1,
          fun outcomes n i => (deliveryLoop_spec outcomes n i).2.2.1,
          fun outcomes n i => (deliveryLoop_spec outcomes n i).2.2.2,
          ?_, rfl, rfl, ?_, fun j t res tx => rfl⟩
  · intro c h1 h2
    simp [attemptOk, raiseForStatusOk]
    omega
  · intro hmacHex secret vercel outcomes url rid st tx er n hu
    have ht : truthy (some url) = true := by simp [truthy, hu]
    refine ⟨?_, ?_, ?_⟩ <;> simp [send_webhook, ht]

/-- Claim C8 witness: the amended delivery statement applied at concrete
inputs — a 500-response stream exhausts the budget, a 204 response is a
success, and a concrete request carries `timeout = 10`. -/
theorem claim8_witness :
    (deliveryLoop (fun _ => HttpAttempt.response 500) 3 0).2.1 ≤ 3 ∧
    attemptOk (HttpAttempt.response 204) = true ∧
    ((send_webhook sampleHmac "" "" (fun _ => HttpAttempt.response 500)
        (some "https://cb.example/hook") (some "rec_1") "transcription_failed"
        none (some "boom") 3).request.map HttpRequest.timeout) = some 10 :=
  ⟨claim8_amended_delivery.1 (fun _ => HttpAttempt.response 500) 3 0,
   claim8_amended_delivery.2.2.2.1 204 (by decide) (by decide),
   (claim8_amended_delivery.2.2.2.2.2.2.1 sampleHmac "" ""
      (fun _ => HttpAttempt.response 500) "https://cb.example/hook"
      (some "rec_1") "transcription_failed" none (some "boom") 3
      (by decide)).1⟩

/-- Claim C9: `cancel_job` returns `false` and leaves the table unchanged
when the job is already terminal (COMPLETED, FAILED, or CANCELLED — so
cancelling an already-CANCELLED job is a `false`-returning no-op, not an
error), and transitions a PENDING or PROCESSING job to CANCELLED returning
`true`. -/
theorem claim9_cancel_semantics (db : Store) (id : String) (now : Nat) (j : Job)
    (h : get_job db id = some j) :
    (j.status = JobStatus.completed ∨ j.status = JobStatus.failed ∨
       j.status = JobStatus.cancelled →
     cancel_job db id now = (db, false)) ∧
    (j.status = JobStatus.pending ∨ j.status = JobStatus.processing →
     (cancel_job db id now).2 = true ∧
     get_job (cancel_job db id now).1 id =
       some { j with status := JobStatus.cancelled, updated_at := now }) := by
  unfold get_job at h
  cases hp : uuidParse id with
  | none => rw [hp] at h; exact absurd h (by simp)
  | some k =>
    rw [hp] at h
    simp only at h
    constructor
    · intro hterm
      have hne : ¬ (j.status = JobStatus.pending ∨ j.status = JobStatus.processing) := by
        rcases hterm with h1 | h1 | h1 <;> rw [h1] <;> simp
      simp [cancel_job, hp, h, hne]
    · intro hact
      have hyes : j.status = JobStatus.pending ∨ j.status = JobStatus.processing := hact
      constructor
      · simp [cancel_job, hp, h, hyes]
      · simp only [cancel_job, hp, h, hyes, if_pos]
        simp [get_job, hp, storeGet_storeSet db k j _ h]

/-- Claim C9 witness: cancelling the concrete PENDING fixture job succeeds
and stores CANCELLED; the hypothesis is discharged on the concrete store. -/
theorem claim9_witness :
    (cancel_job pendingStore uuidKey 5).2 = true ∧
    get_job (cancel_job pendingStore uuidKey 5).1 uuidKey =
      some { sampleJob with status := JobStatus.cancelled, updated_at := 5 } :=
  (claim9_cancel_semantics pendingStore uuidKey 5 sampleJob (by decide)).2
    (Or.inl (by decide))

/-- Claim C10: a `job_id` string that is not a parseable UUID is treated as
not-found — `get_job` returns `none` instead of letting the parse error
escape, and `update_job_status` and `cancel_job` consequently return
`false` leaving the table unchanged. -/
theorem claim10_malformed_id (db : Store) (s : String) (st : JobStatus)
    (em : Option String) (now : Nat) (h : uuidParse s = none) :
    get_job db s = none ∧
    update_job_status db s st em now = (db, false) ∧
    cancel_job db s now = (db, false) := by
  refine ⟨?_, ?_, ?_⟩ <;> simp [get_job, update_job_status, cancel_job, h]

theorem runJob_cons_success (max : Nat) (j : Job) (t : Nat) (res tx : String)
    (rest : List AttemptOutcome) :
    runJob max j t (AttemptOutcome.success res tx :: rest) =
      runAttempt j t (AttemptOutcome.success res tx) := by
  simp [runJob]

theorem runJob_cons_failure (max : Nat) (j : Job) (t : Nat) (e : String)
    (rest : List AttemptOutcome) :
    runJob max j t (AttemptOutcome.failure e :: rest) =
      if (runAttempt j t (AttemptOutcome.failure e)).1.retry_count < max then
        ((runJob max (runAttempt j t (AttemptOutcome.failure e)).1 (t + 2) rest).1,
         (runAttempt j t (AttemptOutcome.failure e)).2 ++
           (runJob max (runAttempt j t (AttemptOutcome.failure e)).1 (t + 2) rest).2)
      else runAttempt j t (AttemptOutcome.failure e) := by
  simp [runJob]

theorem attemptsOf_runAttempt (j : Job) (t : Nat) (o : AttemptOutcome) :
    attemptsOf (runAttempt j t o).2 = 1 := by
  cases o <;> rfl

theorem attemptsOf_append (a b : List Event) :
    attemptsOf (a ++ b) = attemptsOf a + attemptsOf b := by
  simp [attemptsOf, countWebhook, webhookStatuses, List.filterMap_append,
        List.count_append]

theorem runJob_retry_le (max : Nat) (outcomes : List AttemptOutcome) :
    ∀ (j : Job) (t : Nat), j.retry_count < max →
      (runJob max j t outcomes).1.retry_count ≤ max := by
  induction outcomes with
  | nil => intro j t h; simpa [runJob] using h.le
  | cons o rest ih =>
    intro j t h
    cases o with
    | success res tx =>
      rw [runJob_cons_success]
      have : (runAttempt j t (AttemptOutcome.success res tx)).1.retry_count =
          j.retry_count := rfl
      omega
    | failure e =>
      rw [runJob_cons_failure]
      have hrc : (runAttempt j t (AttemptOutcome.failure e)).1.retry_count =
          j.retry_count + 1 := rfl
      by_cases hlt : j.retry_count + 1 < max
      · rw [if_pos (by rw [hrc]; exact hlt)]
        exact ih _ _ (by rw [hrc]; exact hlt)
      · rw [if_neg (by rw [hrc]; exact hlt)]
        omega

theorem runJob_attempts_le (max : Nat) (outcomes : List AttemptOutcome) :
    ∀ (j : Job) (t : Nat), j.retry_count < max →
      attemptsOf (runJob max j t outcomes).2 ≤ max - j.retry_count := by
  induction outcomes with
  | nil => intro j t h; simp [runJob, attemptsOf, countWebhook, webhookStatuses]
  | cons o rest ih =>
    intro j t h
    cases o with
    | success res tx =>
      rw [runJob_cons_success, attemptsOf_runAttempt]
      omega
    | failure e =>
      rw [runJob_cons_failure]
      have hrc : (runAttempt j t (AttemptOutcome.failure e)).1.retry_count =
          j.retry_count + 1 := rfl
      by_cases hlt : j.retry_count + 1 < max
      · rw [if_pos (by rw [hrc]; exact hlt)]
        have hrest := ih (runAttempt j t (AttemptOutcome.failure e)).1 (t + 2)
          (by rw [hrc]; exact hlt)
        rw [hrc] at hrest
        simp only [attemptsOf_append, attemptsOf_runAttempt]
        omega
      · rw [if_neg (by rw [hrc]; exact hlt)]
        rw [attemptsOf_runAttempt]
        omega

theorem runJob_all_failures (max : Nat) (outcomes : List AttemptOutcome) :
    ∀ (j : Job) (t : Nat), outcomes.all isFailure = true →
      j.retry_count < max → max ≤ j.retry_count + outcomes.length →
      (runJob max j t outcomes).1.status = JobStatus.failed ∧
      (runJob max j t outcomes).1.retry_count = max ∧
      attemptsOf (runJob max j t outcomes).2 = max - j.retry_count := by
  induction outcomes with
  | nil =>
    intro j t _ hlt hlen
    simp only [List.length_nil] at hlen
    omega
  | cons o rest ih =>
    intro j t hall hlt hlen
    cases o with
    | success res tx => simp [isFailure] at hall
    | failure e =>
      simp only [List.all_cons, isFailure, Bool.true_and] at hall
      rw [runJob_cons_failure]
      have hrc : (runAttempt j t (AttemptOutcome.failure e)).1.retry_count =
          j.retry_count + 1 := rfl
      by_cases hcont : j.retry_count + 1 < max
      · rw [if_pos (by rw [hrc]; exact hcont)]
        have hrest := ih (runAttempt j t (AttemptOutcome.failure e)).1 (t + 2)
          hall (by rw [hrc]; exact hcont)
          (by rw [hrc]; simp only [List.length_cons] at hlen; omega)
        rw [hrc] at hrest
        obtain ⟨h1, h2, h3⟩ := hrest
        refine ⟨h1, h2, ?_⟩
        simp only [attemptsOf_append, attemptsOf_runAttempt, h3]
        omega
      · rw [if_neg (by rw [hrc]; exact hcont)]
        have hstat : (runAttempt j t (AttemptOutcome.failure e)).1.status =
            JobStatus.failed := rfl
        refine ⟨hstat, ?_, ?_⟩
        · rw [hrc]; omega
        · rw [attemptsOf_runAttempt]; omega

/-- Claim C1 counterexample: in the C1 scenario (fresh job,
`max_retries = 3`, two forced failures then a success) the code does end
COMPLETED with `retry_count = 2` and one completed webhook, but it records
FAILED (never PENDING) after each failed attempt and sends two
`"transcription_failed"` webhooks — the claimed "returns to PENDING" and
"zero failed webhooks" are both false of the code. -/
theorem claim1_counterexample :
    c1run.1.status = JobStatus.completed ∧ c1run.1.retry_count = 2 ∧
    countWebhook c1run.2 "transcribed" = 1 ∧
    countWebhook c1run.2 "transcription_failed" = 2 ∧
    ¬ countWebhook c1run.2 "transcription_failed" = 0 ∧
    commitStatuses c1run.2 =
      [JobStatus.processing, JobStatus.failed, JobStatus.processing,
       JobStatus.failed, JobStatus.processing, JobStatus.completed] ∧
    ¬ JobStatus.pending ∈ commitStatuses c1run.2 := by
  decide

/-- Claim C1 amended: a transcription failure with retries remaining marks
the job FAILED (not PENDING), increments `retry_count`, and sends a
`"transcription_failed"` webhook before the retry is scheduled; the C1
scenario therefore ends COMPLETED with `retry_count = 2`, exactly one
completed (`"transcribed"`) webhook, two failure webhooks, and three
started attempts. -/
theorem claim1_amended_failure_path :
    (∀ (j : Job) (t : Nat) (e : String),
      (runAttempt j t (AttemptOutcome.failure e)).1.status = JobStatus.failed ∧
      (runAttempt j t (AttemptOutcome.failure e)).1.retry_count = j.retry_count + 1 ∧
      countWebhook (runAttempt j t (AttemptOutcome.failure e)).2 "transcription_failed" = 1 ∧
      commitStatuses (runAttempt j t (AttemptOutcome.failure e)).2 =
        [JobStatus.processing, JobStatus.failed]) ∧
    (c1run.1.status = JobStatus.completed ∧ c1run.1.retry_count = 2 ∧
     countWebhook c1run.2 "transcribed" = 1 ∧
     countWebhook c1run.2 "transcription_failed" = 2 ∧
     countWebhook c1run.2 "transcribing" = 3) := by
  constructor
  · intro j t e
    exact ⟨rfl, rfl, rfl, rfl⟩
  · decide

/-- Claim C2 counterexample: a job already CANCELLED is not protected — the
completion write of `process_transcription` overwrites the terminal state
to COMPLETED, keeps the result, and sends the completed webhook. -/
theorem claim2_counterexample :
    cancelledJob.status = JobStatus.cancelled ∧
    (workerFinishSuccess cancelledJob 5 "res" "hello world").1.status =
      JobStatus.completed ∧
    ¬ (workerFinishSuccess cancelledJob 5 "res" "hello world").1.status =
      JobStatus.cancelled ∧
    (workerFinishSuccess cancelledJob 5 "res" "hello world").1.result =
      some "res" ∧
    countWebhook (workerFinishSuccess cancelledJob 5 "res" "hello world").2
      "transcribed" = 1 := by
  decide

/-- Claim C2 amended: the completion path performs NO status check before
writing — a job whose current state is CANCELLED is overwritten to
COMPLETED, the result and text are stored rather than discarded, and a
completed webhook is sent (so a job can leave the terminal CANCELLED
state). -/
theorem claim2_amended_overwrite (j : Job) (t : Nat) (res tx : String)
    (h : j.status = JobStatus.cancelled) :
    (workerFinishSuccess j t res tx).1.status = JobStatus.completed ∧
    (workerFinishSuccess j t res tx).1.result = some res ∧
    (workerFinishSuccess j t res tx).1.transcription_text = some tx ∧
    countWebhook (workerFinishSuccess j t res tx).2 "transcribed" = 1 :=
  ⟨rfl, rfl, rfl, rfl⟩

/-- Claim C2 witness: the amended statement applied to the concrete
cancelled fixture job. -/
theorem claim2_witness :
    (workerFinishSuccess cancelledJob 9 "res" "hello world").1.status =
      JobStatus.completed ∧
    (workerFinishSuccess cancelledJob 9 "res" "hello world").1.result =
      some "res" ∧
    (workerFinishSuccess cancelledJob 9 "res" "hello world").1.transcription_text =
      some "hello world" ∧
    countWebhook (workerFinishSuccess cancelledJob 9 "res" "hello world").2
      "transcribed" = 1 :=
  claim2_amended_overwrite cancelledJob 9 "res" "hello world" (by decide)

/-- Claim C3: starting from a freshly created job (`retry_count = 0`),
`retry_count` never exceeds the configured maximum, at most `max` attempts
are ever started, and when every attempt fails the run that exhausts the
budget ends FAILED with `retry_count = max` after exactly `max` attempts —
no further re-dispatch happens. -/
theorem claim3_retry_invariant (j : Job) (t : Nat)
    (outcomes : List AttemptOutcome) (max : Nat)
    (h0 : j.retry_count = 0) (hm : 0 < max) :
    (runJob max j t outcomes).1.retry_count ≤ max ∧
    attemptsOf (runJob max j t outcomes).2 ≤ max ∧
    (outcomes.all isFailure = true → max ≤ outcomes.length →
      (runJob max j t outcomes).1.status = JobStatus.failed ∧
      (runJob max j t outcomes).1.retry_count = max ∧
      attemptsOf (runJob max j t outcomes).2 = max) := by
  have hlt : j.retry_count < max := by omega
  refine ⟨runJob_retry_le max outcomes j t hlt, ?_, fun hall hlen => ?_⟩
  · have := runJob_attempts_le max outcomes j t hlt
    omega
  · obtain ⟨h1, h2, h3⟩ := runJob_all_failures max outcomes j t hall hlt (by omega)
    exact ⟨h1, h2, by omega⟩

/-- Claim C3 witness: the concrete exhaustion scenario — three forced
failures with `MAX_RETRY_ATTEMPTS = 3` on the fresh fixture job. -/
theorem claim3_witness :
    (runJob MAX_RETRY_ATTEMPTS sampleJob 0
      [AttemptOutcome.failure "e", AttemptOutcome.failure "e",
       AttemptOutcome.failure "e"]).1.retry_count ≤ MAX_RETRY_ATTEMPTS ∧
    attemptsOf (runJob MAX_RETRY_ATTEMPTS sampleJob 0
      [AttemptOutcome.failure "e", AttemptOutcome.failure "e",
       AttemptOutcome.failure "e"]).2 ≤ MAX_RETRY_ATTEMPTS ∧
    ([AttemptOutcome.failure "e", AttemptOutcome.failure "e",
      AttemptOutcome.failure "e"].all isFailure = true →
     MAX_RETRY_ATTEMPTS ≤ [AttemptOutcome.failure "e", AttemptOutcome.failure "e",
      AttemptOutcome.failure "e"].length →
     (runJob MAX_RETRY_ATTEMPTS sampleJob 0
       [AttemptOutcome.failure "e", AttemptOutcome.failure "e",
        AttemptOutcome.failure "e"]).1.status = JobStatus.failed ∧
     (runJob MAX_RETRY_ATTEMPTS sampleJob 0
       [AttemptOutcome.failure "e", AttemptOutcome.failure "e",
        AttemptOutcome.failure "e"]).1.retry_count = MAX_RETRY_ATTEMPTS ∧
     attemptsOf (runJob MAX_RETRY_ATTEMPTS sampleJob 0
       [AttemptOutcome.failure "e", AttemptOutcome.failure "e",
        AttemptOutcome.failure "e"]).2 = MAX_RETRY_ATTEMPTS) :=
  claim3_retry_invariant sampleJob 0
    [AttemptOutcome.failure "e", AttemptOutcome.failure "e",
     AttemptOutcome.failure "e"] MAX_RETRY_ATTEMPTS (by decide) (by decide)

/-- Claim C4 counterexample: reporting progress 150 on a COMPLETED job
whose stored progress is 100 is neither ignored nor clamped — the source
stores 150 verbatim. -/
theorem claim4_counterexample :
    completedJob.status = JobStatus.completed ∧
    completedJob.progress = 100 ∧
    update_job_progress completedStore uuidKey 150 =
      some [(uuidKey, { completedJob with progress := 150 })] ∧
    ¬ (150 : Int) ≤ 100 := by
  decide

/-- Claim C4 amended: `update_job_progress` stores the reported value
verbatim for any existing job — no clamping to [0, 100], no PROCESSING
check, and no monotonicity comparison; when the id parses but no row
exists it silently does nothing. -/
theorem claim4_amended_store_verbatim :
    (∀ (db : Store) (s k : String) (j : Job) (p : Int),
      uuidParse s = some k → storeGet db k = some j →
      update_job_progress db s p =
        some (storeSet db k { j with progress := p })) ∧
    (∀ (db : Store) (s k : String) (p : Int),
      uuidParse s = some k → storeGet db k = none →
      update_job_progress db s p = some db) := by
  constructor
  · intro db s k j p h1 h2
    simp [update_job_progress, h1, h2]
  · intro db s k p h1 h2
    simp [update_job_progress, h1, h2]

/-- Claim C4 witness: the amended statement applied to the concrete
completed fixture — value 150 is stored as-is. -/
theorem claim4_witness :
    update_job_progress completedStore uuidKey 150 =
      some (storeSet completedStore uuidKey { completedJob with progress := 150 }) :=
  claim4_amended_store_verbatim.1 completedStore uuidKey uuidKey completedJob 150
    (by decide) (by decide)

/-- Claim C10 witness: the malformed identifier `"not-a-uuid"` is reported
as not-found by all three operations on the concrete store. -/
theorem claim10_witness :
    get_job pendingStore "not-a-uuid" = none ∧
    update_job_status pendingStore "not-a-uuid" JobStatus.failed (some "boom") 7 =
      (pendingStore, false) ∧
    cancel_job pendingStore "not-a-uuid" 7 = (pendingStore, false) :=
  claim10_malformed_id pendingStore "not-a-uuid" JobStatus.failed (some "boom") 7
    (by decide)

end ScribeRabbit
